import Mathlib

/-!
# go-marketplace: request handlers of the user and product services

A shallow embedding of `user-service/internal/handlers/user_handler.go` and
`product-service/internal/handlers/product_handler.go`.

The relational store (`*sql.DB`) and the password hasher (`bcrypt`) are external
collaborators.  They are embedded as oracles: a handler is a function of the
oracles and the request, and returns the list of events it caused (hasher calls
and statements sent to the store, in program order) together with the Go result
pair `(response, error)` as an `Except`.

Every SQL text of the source is one constructor of `Stmt`; the constructor's
arguments are the positional parameters `$1, $2, ...` in order.
-/

namespace Marketplace

/-! ## Errors -/

/-- Errors produced by `database/sql` and the `lib/pq` driver, as far as the handlers
can tell them apart with `errors.Is` and `errors.As`. -/
inductive DbError where
  /-- The sentinel `sql.ErrNoRows`. -/
  | noRows : DbError
  /-- A `*pq.Error`, with its SQLSTATE `Code` and its `Message`. -/
  | pq (code : String) (message : String) : DbError
  /-- Any other error value, with its `Error()` text. -/
  | other (text : String) : DbError
  /-- An error wrapping another one (`fmt.Errorf` with `%w`), with its `Error()` text. -/
  | wrap (text : String) (inner : DbError) : DbError
  deriving DecidableEq, Repr

namespace DbError

/-- The Go expression `errors.Is(err, sql.ErrNoRows)`: the chain of `err` holds the sentinel. -/
def isNoRows : DbError → Bool
  | noRows => true
  | pq _ _ => false
  | other _ => false
  | wrap _ inner => isNoRows inner

/-- The Go expression `errors.As(err, &pgErr)`: the first `*pq.Error` of the chain, as its code. -/
def asPq : DbError → Option String
  | noRows => none
  | pq code _ => some code
  | other _ => none
  | wrap _ inner => asPq inner

/-- The Go condition `errors.As(err, &pgErr) && pgErr.Code == "23505"`. -/
def isUniqueViolation (err : DbError) : Bool :=
  match asPq err with
  | some code => code == "23505"
  | none => false

/-- The method `Error()`, used by the `%v` verb. -/
def Error : DbError → String
  | noRows => "sql: no rows in result set"
  | pq _ message => "pq: " ++ message
  | other text => text
  | wrap text _ => text

end DbError

/-- The gRPC status codes (`google.golang.org/grpc/codes`) that matter here. -/
inductive Code where
  | OK | Unknown | InvalidArgument | NotFound | AlreadyExists | Internal
  deriving DecidableEq, Repr

/-- The `error` value a handler returns: either a gRPC status built by `status.Errorf`
or `status.Error`, or the store's error handed back unchanged (`return nil, err`). -/
inductive HandlerError where
  | status (code : Code) (msg : String) : HandlerError
  | raw (err : DbError) : HandlerError
  deriving DecidableEq, Repr

/-- The code that `status.FromError(err)` reports: the code of a status error, and
`codes.Unknown` for an error that is not a status. -/
def HandlerError.code : HandlerError → Code
  | .status c _ => c
  | .raw _ => Code.Unknown

/-! ## Messages -/

/-- A `float32` field.  The handlers only move these values, so they are carried as the
bit pattern. -/
abbrev Float32 := Nat

/-- The request of `CreateUser`, as read through its getters. -/
structure CreateUserRequest where
  FirstName : String
  LastName : String
  Email : String
  Password : String
  PhoneNumber : String
  deriving DecidableEq, Repr

structure CreateUserResponse where
  Id : Nat
  deriving DecidableEq, Repr

structure UpdateUserRequest where
  Id : Nat
  Email : String
  Password : String
  FirstName : String
  LastName : String
  PhoneNumber : String
  deriving DecidableEq, Repr

/-- The message `userV1.User`, with the five fields `UpdateUser` scans into. -/
structure User where
  Id : Nat
  Email : String
  FirstName : String
  LastName : String
  PhoneNumber : String
  deriving DecidableEq, Repr

structure UpdateUserResponse where
  User : User
  deriving DecidableEq, Repr

structure DeleteUserRequest where
  Id : Nat
  deriving DecidableEq, Repr

/-- The message `DeleteUserResponse`, built empty. -/
structure DeleteUserResponse where
  deriving DecidableEq, Repr

structure CreateProductRequest where
  Name : String
  Sku : String
  ShortDescription : String
  Description : String
  Price : Float32
  PriceOld : Float32
  Discount : Float32
  Quantity : Int
  IsActive : Bool
  Brand : String
  Rating : Float32
  CategoryId : Int
  deriving DecidableEq, Repr

structure CreateProductResponse where
  ProductId : Nat
  deriving DecidableEq, Repr

structure UpdateProductRequest where
  Name : String
  Sku : String
  ShortDescription : String
  Description : String
  Price : Float32
  PriceOld : Float32
  Discount : Float32
  Quantity : Int
  IsActive : Bool
  Brand : String
  Rating : Float32
  CategoryId : Int
  ProductId : Nat
  deriving DecidableEq, Repr

structure UpdateProductResponse where
  ProductId : Nat
  deriving DecidableEq, Repr

structure DeleteProductRequest where
  ProductId : Nat
  deriving DecidableEq, Repr

structure DeleteProductResponse where
  ProductId : Nat
  deriving DecidableEq, Repr

structure GetAllProductsByQueryRequest where
  Query : String
  deriving DecidableEq, Repr

/-- The message `productV1.Product`, with the thirteen fields `GetAllProductsByQuery` scans
into. -/
structure Product where
  Id : Int
  Name : String
  Sku : String
  ShortDescription : String
  Description : String
  Price : Float32
  PriceOld : Float32
  Discount : Float32
  Quantity : Int
  IsActive : Bool
  Brand : String
  Rating : Float32
  CategoryId : Int
  deriving DecidableEq, Repr

structure GetAllProductsByQueryResponse where
  Products : List Product
  deriving DecidableEq, Repr

/-! ## Statements and the store oracle -/

/-- The statements of the two handler files.  The arguments of a constructor are the
positional parameters of the SQL text, in order. -/
inductive Stmt where
  /-- `SELECT id FROM roles WHERE name = $1` -/
  | selectRoleId (name : String) : Stmt
  /-- `INSERT INTO users (firstname, lastname, email, password, phone_number, role_id)
  VALUES ($1, $2, $3, $4, $5, $6) RETURNING id` -/
  | insertUser (firstname lastname email password phone_number : String) (role_id : Nat) : Stmt
  /-- `UPDATE users SET email = COALESCE(NULLIF($2, ''), email), password = COALESCE($3, password),
  firstname = COALESCE(NULLIF($4, ''), firstname), lastname = COALESCE(NULLIF($5, ''), lastname),
  phone_number = COALESCE(NULLIF($6, ''), phone_number) WHERE id = $1
  RETURNING id, email, firstname, lastname, phone_number`; `$3` is a `*string`, and `none` is
  the nil pointer, sent as SQL `NULL`. -/
  | updateUser (id : Nat) (email : String) (password : Option String)
      (firstname lastname phone_number : String) : Stmt
  /-- `DELETE FROM users WHERE id = $1` -/
  | deleteUser (id : Nat) : Stmt
  /-- `INSERT INTO products (name, sku, short_description, description, price, price_old,
  discount, quantity, is_active, brand, rating, category_id)
  VALUES ($1, $2, $3, $4, $5, $6, $7, $8, $9, $10, $11, $12) RETURNING id` -/
  | insertProduct (p1 p2 p3 p4 : String) (p5 p6 p7 : Float32) (p8 : Int) (p9 : Bool)
      (p10 : String) (p11 : Float32) (p12 : Int) : Stmt
  /-- `UPDATE products SET name = $1, sku = $2, short_description = $3, description = $4,
  price = $5, price_old = $6, discount = $7, quantity = $8, is_active = $9, brand = $10,
  rating = $11, category_id = $12, updated_at = NOW() WHERE id = $13` -/
  | updateProduct (p1 p2 p3 p4 : String) (p5 p6 p7 : Float32) (p8 : Int) (p9 : Bool)
      (p10 : String) (p11 : Float32) (p12 : Int) (p13 : Nat) : Stmt
  /-- `DELETE FROM products WHERE id = $1 RETURNING id` -/
  | deleteProduct (id : Nat) : Stmt
  /-- `SELECT id, name, sku, short_description, description, price, price_old, discount,
  quantity, is_active, brand, rating, category_id FROM products
  WHERE (is_active = TRUE) AND name LIKE CONCAT('%', $1::text, '%')` -/
  | selectActiveProductsLike (query : String) : Stmt
  deriving DecidableEq, Repr

/-- A `sql.Result`, as far as it is read: the outcome of `RowsAffected()`. -/
structure Result where
  RowsAffected : Except DbError Int

/-- One turn of the loop over `*sql.Rows` for which `rows.Next()` is true: the outcome of
`rows.Scan(...)` and the value of `rows.Err()` read right after it. -/
structure RowStep where
  Scan : Except DbError Product
  Err : Option DbError

/-- The store handle `*sql.DB`, as an oracle answering each statement. -/
structure DB where
  /-- `QueryRow(...).Scan(&id)` with a `uint32` destination. -/
  QueryRowScanId : Stmt → Except DbError Nat
  /-- `QueryRowContext(...).Scan(&user.Id, &user.Email, ...)`. -/
  QueryRowScanUser : Stmt → Except DbError User
  /-- `ExecContext(...)`. -/
  Exec : Stmt → Except DbError Result
  /-- `Query(...)`: the turns of the row loop, in order. -/
  Query : Stmt → Except DbError (List RowStep)

/-- The hasher `bcrypt.GenerateFromPassword(password, cost)`, with the digest as a string. -/
structure Hasher where
  GenerateFromPassword : String → Nat → Except String String

/-- The constant `bcrypt.DefaultCost`. -/
def DefaultCost : Nat := 10

/-- What a handler does to its collaborators, in program order. -/
inductive Event where
  | hash (password : String) (cost : Nat) : Event
  | stmt (s : Stmt) : Event
  deriving DecidableEq, Repr

/-- The statements among the events. -/
def statements : List Event → List Stmt
  | [] => []
  | Event.stmt s :: es => s :: statements es
  | Event.hash _ _ :: es => statements es

/-- The hasher calls among the events. -/
def hashCalls : List Event → List String
  | [] => []
  | Event.stmt _ :: es => hashCalls es
  | Event.hash p _ :: es => p :: hashCalls es

/-- The run of a handler: the events and the Go result pair. -/
abbrev Run (α : Type) := List Event × Except HandlerError α

/-! ## user-service handlers -/

def DEFAULT_USER_ROLE : String := "buyer"

/-- The statement `CreateUser` sends to insert the row. -/
def createUserInsert (req : CreateUserRequest) (hashedPassword : String) (defaultUserRole : Nat) :
    Stmt :=
  Stmt.insertUser req.FirstName req.LastName req.Email hashedPassword req.PhoneNumber
    defaultUserRole

/-- The method `UserServerHandler.CreateUser`. -/
def CreateUser (db : DB) (bcrypt : Hasher) (req : CreateUserRequest) : Run CreateUserResponse :=
  let roleQuery := Stmt.selectRoleId DEFAULT_USER_ROLE
  match db.QueryRowScanId roleQuery with
  | .error _ =>
    ([.stmt roleQuery], .error (.status Code.Internal "failed to get user role"))
  | .ok defaultUserRole =>
    match bcrypt.GenerateFromPassword req.Password DefaultCost with
    | .error _ =>
      ([.stmt roleQuery, .hash req.Password DefaultCost],
        .error (.status Code.Internal "failed to process password"))
    | .ok hashedPassword =>
      let insert := createUserInsert req hashedPassword defaultUserRole
      let events := [.stmt roleQuery, .hash req.Password DefaultCost, .stmt insert]
      match db.QueryRowScanId insert with
      | .error err =>
        if err.isUniqueViolation then
          (events, .error (.status Code.AlreadyExists "email already exists"))
        else
          (events, .error (.status Code.Internal "failed to create user"))
      | .ok userId => (events, .ok { Id := userId })

/-- The statement `UpdateUser` sends. -/
def updateUserStmt (req : UpdateUserRequest) (hashedPassword : Option String) : Stmt :=
  Stmt.updateUser req.Id req.Email hashedPassword req.FirstName req.LastName req.PhoneNumber

/-- The second half of `UpdateUser`: the statement and the classification of its outcome. -/
def updateUserQuery (db : DB) (req : UpdateUserRequest) (hashedPassword : Option String)
    (before : List Event) : Run UpdateUserResponse :=
  let update := updateUserStmt req hashedPassword
  match db.QueryRowScanUser update with
  | .error err =>
    if err.isNoRows then
      (before ++ [.stmt update], .error (.status Code.NotFound "user not found"))
    else
      (before ++ [.stmt update], .error (.raw err))
  | .ok user => (before ++ [.stmt update], .ok { User := user })

/-- The method `UserServerHandler.UpdateUser`. -/
def UpdateUser (db : DB) (bcrypt : Hasher) (req : UpdateUserRequest) : Run UpdateUserResponse :=
  if req.Password ≠ "" then
    match bcrypt.GenerateFromPassword req.Password DefaultCost with
    | .error _ =>
      ([.hash req.Password DefaultCost],
        .error (.status Code.Internal "failed to process password"))
    | .ok hash => updateUserQuery db req (some hash) [.hash req.Password DefaultCost]
  else
    updateUserQuery db req none []

/-- The method `UserServerHandler.DeleteUser`. -/
def DeleteUser (db : DB) (req : DeleteUserRequest) : Run DeleteUserResponse :=
  let delete := Stmt.deleteUser req.Id
  match db.Exec delete with
  | .error err => ([.stmt delete], .error (.raw err))
  | .ok res =>
    match res.RowsAffected with
    | .error err => ([.stmt delete], .error (.raw err))
    | .ok rows =>
      if rows = 0 then
        ([.stmt delete], .error (.status Code.NotFound "user not found"))
      else
        ([.stmt delete], .ok {})

/-! ## product-service handlers -/

/-- The method `ProductServer.CreateProduct`. -/
def CreateProduct (db : DB) (req : CreateProductRequest) : Run CreateProductResponse :=
  let insert := Stmt.insertProduct req.Name req.Sku req.ShortDescription req.Description
    req.Price req.PriceOld req.Discount req.Quantity req.IsActive req.Brand req.Rating
    req.CategoryId
  match db.QueryRowScanId insert with
  | .error err => ([.stmt insert], .error (.raw err))
  | .ok productId => ([.stmt insert], .ok { ProductId := productId })

/-- The statement `UpdateProduct` sends. -/
def updateProductStmt (req : UpdateProductRequest) : Stmt :=
  Stmt.updateProduct req.Name req.Sku req.ShortDescription req.Description req.Price
    req.PriceOld req.Discount req.Quantity req.IsActive req.Brand req.Rating req.CategoryId
    req.ProductId

/-- The method `ProductServer.UpdateProduct`. -/
def UpdateProduct (db : DB) (req : UpdateProductRequest) : Run UpdateProductResponse :=
  let update := updateProductStmt req
  match db.Exec update with
  | .error err =>
    ([.stmt update], .error (.status Code.Internal ("db error: " ++ err.Error)))
  | .ok res =>
    match res.RowsAffected with
    | .error err =>
      ([.stmt update], .error (.status Code.Internal ("rows affected error: " ++ err.Error)))
    | .ok rows =>
      if rows = 0 then
        ([.stmt update], .error (.status Code.NotFound "product not found"))
      else
        ([.stmt update], .ok { ProductId := req.ProductId })

/-- The method `ProductServer.DeleteProduct`. -/
def DeleteProduct (db : DB) (req : DeleteProductRequest) : Run DeleteProductResponse :=
  let delete := Stmt.deleteProduct req.ProductId
  match db.QueryRowScanId delete with
  | .error err => ([.stmt delete], .error (.raw err))
  | .ok productId => ([.stmt delete], .ok { ProductId := productId })

/-- The loop `for rows.Next() { ... }` of `GetAllProductsByQuery`, with the slice built so
far.  The value of `rows.Err()` after the loop is not read by the source. -/
def scanProducts : List RowStep → List Product → Except HandlerError (List Product)
  | [], products => .ok products
  | step :: rest, products =>
    match step.Scan with
    | .error err => .error (.raw err)
    | .ok product =>
      match step.Err with
      | some err => .error (.raw err)
      | none => scanProducts rest (products ++ [product])

/-- The method `ProductServer.GetAllProductsByQuery`. -/
def GetAllProductsByQuery (db : DB) (req : GetAllProductsByQueryRequest) :
    Run GetAllProductsByQueryResponse :=
  let query := Stmt.selectActiveProductsLike req.Query
  match db.Query query with
  | .error err => ([.stmt query], .error (.raw err))
  | .ok rows =>
    match scanProducts rows [] with
    | .error err => ([.stmt query], .error err)
    | .ok products => ([.stmt query], .ok { Products := products })

/-! ## What the statements do to the tables

The SQL texts of the source, read as functions on the rows of the `users` and `products`
tables.  Columns hold non-null values, as the Go destinations of `Scan` require. -/

/-- A row of the table `users`. -/
structure UserRow where
  id : Nat
  firstname : String
  lastname : String
  email : String
  password : String
  phone_number : String
  role_id : Nat
  deriving DecidableEq, Repr

/-- A row of the table `products`. -/
structure ProductRow where
  id : Int
  name : String
  sku : String
  short_description : String
  description : String
  price : Float32
  price_old : Float32
  discount : Float32
  quantity : Int
  is_active : Bool
  brand : String
  rating : Float32
  category_id : Int
  created_at : Nat
  updated_at : Nat
  deriving DecidableEq, Repr

/-- SQL `NULLIF(a, b)`: `NULL` when the two are equal, else `a`. -/
def NULLIF (a b : String) : Option String :=
  if a = b then none else some a

/-- SQL `COALESCE(a, b)` with a non-null second argument: the first non-null one. -/
def COALESCE (a : Option String) (b : String) : String :=
  match a with
  | some v => v
  | none => b

/-- The `SET` clause of a statement, on one row of `users`.  Only the `UPDATE users`
statement of `UpdateUser` has one. -/
def userSet (row : UserRow) : Stmt → UserRow
  | .updateUser _ p2 p3 p4 p5 p6 =>
    { row with
      email := COALESCE (NULLIF p2 "") row.email
      password := COALESCE p3 row.password
      firstname := COALESCE (NULLIF p4 "") row.firstname
      lastname := COALESCE (NULLIF p5 "") row.lastname
      phone_number := COALESCE (NULLIF p6 "") row.phone_number }
  | _ => row

/-- The `WHERE` clause of a statement, on one row of `users`, for the statements that
change rows. -/
def userWhere (row : UserRow) : Stmt → Bool
  | .updateUser p1 _ _ _ _ _ => row.id = p1
  | .deleteUser p1 => row.id = p1
  | _ => false

/-- The clause `RETURNING id, email, firstname, lastname, phone_number`. -/
def returningUser (row : UserRow) : User :=
  { Id := row.id, Email := row.email, FirstName := row.firstname, LastName := row.lastname,
    PhoneNumber := row.phone_number }

/-- The `UPDATE users ... WHERE id = $1 RETURNING ...` statement on the table: the table
after it and the rows it returns. -/
def updateUsers (update : Stmt) (users : List UserRow) : List UserRow × List User :=
  (users.map fun row => if userWhere row update then userSet row update else row,
    (users.filter fun row => userWhere row update).map fun row =>
      returningUser (userSet row update))

/-- The `SET` clause of a statement, on one row of `products`; `now` is the value of
`NOW()`.  Only the `UPDATE products` statement of `UpdateProduct` has one. -/
def productSet (now : Nat) (row : ProductRow) : Stmt → ProductRow
  | .updateProduct p1 p2 p3 p4 p5 p6 p7 p8 p9 p10 p11 p12 _ =>
    { row with
      name := p1
      sku := p2
      short_description := p3
      description := p4
      price := p5
      price_old := p6
      discount := p7
      quantity := p8
      is_active := p9
      brand := p10
      rating := p11
      category_id := p12
      updated_at := now }
  | _ => row

/-- SQL `text LIKE pattern` on the characters, with the default escape character: in the
pattern `%` stands for any run of characters, `_` for any one character, and a backslash
makes the character after it stand for itself.  A pattern that ends in a lone backslash is
rejected by the store; it matches nothing here (see `danglingEscape`). -/
def likeMatch : List Char → List Char → Bool
  | [], text => text.isEmpty
  | c :: pattern, text =>
    if c = '%' then
      text.tails.any fun rest => likeMatch pattern rest
    else if c = '\\' then
      match pattern, text with
      | [], _ => false
      | _ :: _, [] => false
      | literal :: pattern, t :: text => t == literal && likeMatch pattern text
    else if c = '_' then
      match text with
      | [] => false
      | _ :: text => likeMatch pattern text
    else
      match text with
      | [] => false
      | t :: text => t == c && likeMatch pattern text

/-- Whether a pattern ends in a lone escape character. -/
def danglingEscape : List Char → Bool
  | [] => false
  | c :: pattern =>
    if c = '\\' then
      match pattern with
      | [] => true
      | _ :: pattern => danglingEscape pattern
    else danglingEscape pattern

/-- SQL `text LIKE pattern`. -/
def LIKE (text pattern : String) : Bool :=
  likeMatch pattern.data text.data

/-- SQL `CONCAT('%', $1::text, '%')`. -/
def likePattern (query : String) : String :=
  "%" ++ query ++ "%"

/-- The columns the `SELECT` of `GetAllProductsByQuery` lists. -/
def selectedProduct (row : ProductRow) : Product :=
  { Id := row.id, Name := row.name, Sku := row.sku, ShortDescription := row.short_description,
    Description := row.description, Price := row.price, PriceOld := row.price_old,
    Discount := row.discount, Quantity := row.quantity, IsActive := row.is_active,
    Brand := row.brand, Rating := row.rating, CategoryId := row.category_id }

/-- The `SELECT ... WHERE (is_active = TRUE) AND name LIKE CONCAT('%', $1::text, '%')`
statement on the table, in the table's order. -/
def selectActiveProductsLike (query : String) (products : List ProductRow) : List ProductRow :=
  products.filter fun row => row.is_active && LIKE row.name (likePattern query)

/-- The row loop over the rows a `SELECT` returns, every `Scan` succeeding. -/
def rowSteps (rows : List ProductRow) : List RowStep :=
  rows.map fun row => { Scan := .ok (selectedProduct row), Err := none }

/-- Whether the query is a case-sensitive substring of the name: the name is some
characters, then the query, then some characters. -/
def containsSubstring (name query : String) : Bool :=
  decide (query.data <:+: name.data)

/-- The characters with a special meaning in a `LIKE` pattern. -/
def isLikeMeta (c : Char) : Bool :=
  c = '%' || c = '_' || c = '\\'

/-! ## Concrete collaborators

Stores and hashers that answer as the mocks of `user-service/tests/user_handler_test.go`
do, to run the handlers on concrete requests. -/

/-- A store on which no call is expected: every call fails. -/
def unexpectedDB : DB where
  QueryRowScanId := fun _ => .error (DbError.other "call was not expected")
  QueryRowScanUser := fun _ => .error (DbError.other "call was not expected")
  Exec := fun _ => .error (DbError.other "call was not expected")
  Query := fun _ => .error (DbError.other "call was not expected")

/-- A hasher that succeeds with a fixed digest. -/
def fixedHasher (digest : String) : Hasher where
  GenerateFromPassword := fun _ _ => .ok digest

/-- A hasher that fails. -/
def failingHasher : Hasher where
  GenerateFromPassword := fun _ _ => .error "bcrypt: password length exceeds 72 bytes"

/-- The request of `TestCreateUser_Success`. -/
def johnDoe : CreateUserRequest :=
  { FirstName := "John", LastName := "Doe", Email := "john@example.com",
    Password := "password123", PhoneNumber := "+1234567890" }

/-- The store of `TestCreateUser_Success`: the role lookup returns 1, the insert 100. -/
def createSuccessDB : DB :=
  { unexpectedDB with
    QueryRowScanId := fun s =>
      match s with
      | .selectRoleId _ => .ok 1
      | .insertUser _ _ _ _ _ _ => .ok 100
      | _ => .error (DbError.other "call was not expected") }

/-- The store of `TestCreateUser_EmailAlreadyExists`: the insert fails with
`&pq.Error{Code: "23505"}`. -/
def emailExistsDB : DB :=
  { unexpectedDB with
    QueryRowScanId := fun s =>
      match s with
      | .selectRoleId _ => .ok 1
      | _ => .error (DbError.pq "23505" "") }

/-- The store of `TestCreateUser_RoleNotFound`: the role lookup fails with `sql.ErrNoRows`. -/
def roleNotFoundDB : DB :=
  { unexpectedDB with QueryRowScanId := fun _ => .error DbError.noRows }

/-- The request of `TestUpdateUser_Success`: no password. -/
def johnUpdated : UpdateUserRequest :=
  { Id := 1, Email := "john.updated@example.com", Password := "", FirstName := "John",
    LastName := "Updated", PhoneNumber := "+9876543210" }

/-- The request of `TestUpdateUser_WithPassword`. -/
def johnNewPassword : UpdateUserRequest :=
  { Id := 1, Email := "", Password := "newpassword123", FirstName := "John", LastName := "",
    PhoneNumber := "" }

/-- The request of `TestUpdateUser_UserNotFound`. -/
def john999 : UpdateUserRequest :=
  { Id := 999, Email := "", Password := "", FirstName := "John", LastName := "",
    PhoneNumber := "" }

/-- The request of `TestUpdateUser_DatabaseError`. -/
def john1 : UpdateUserRequest :=
  { Id := 1, Email := "", Password := "", FirstName := "John", LastName := "",
    PhoneNumber := "" }

/-- A store whose `UPDATE users` statement returns the given row. -/
def updateReturnsDB (user : User) : DB :=
  { unexpectedDB with QueryRowScanUser := fun _ => .ok user }

/-- A store whose single-row statements fail with the given error. -/
def updateFailsDB (err : DbError) : DB :=
  { unexpectedDB with QueryRowScanUser := fun _ => .error err }

/-- A store whose `Exec` reports the given outcome of `RowsAffected()`. -/
def execDB (rows : Except DbError Int) : DB :=
  { unexpectedDB with Exec := fun _ => .ok { RowsAffected := rows } }

/-- A store whose `Exec` fails with the given error. -/
def execFailsDB (err : DbError) : DB :=
  { unexpectedDB with Exec := fun _ => .error err }

/-- A stored account, to run the update statement on. -/
def storedJohn : UserRow :=
  { id := 1, firstname := "John", lastname := "Doe", email := "john@example.com",
    password := "old digest", phone_number := "+123", role_id := 1 }

/-- A store that runs the `SELECT` of `GetAllProductsByQuery` on the given table. -/
def productsDB (products : List ProductRow) : DB :=
  { unexpectedDB with
    Query := fun s =>
      match s with
      | .selectActiveProductsLike query => .ok (rowSteps (selectActiveProductsLike query products))
      | _ => .error (DbError.other "call was not expected") }

/-- An active product named "abc". -/
def abcRow : ProductRow :=
  { id := 1, name := "abc", sku := "SKU-1", short_description := "", description := "",
    price := 0, price_old := 0, discount := 0, quantity := 3, is_active := true, brand := "",
    rating := 0, category_id := 1, created_at := 0, updated_at := 0 }

/-- An inactive product named "abcd". -/
def inactiveRow : ProductRow :=
  { abcRow with id := 2, name := "abcd", is_active := false }

/-- A request of `UpdateProduct` with empty strings in it. -/
def clearedProduct : UpdateProductRequest :=
  { Name := "", Sku := "", ShortDescription := "", Description := "", Price := 0, PriceOld := 0,
    Discount := 0, Quantity := 0, IsActive := false, Brand := "", Rating := 0, CategoryId := 2,
    ProductId := 1 }

/-- The number of statements a run sent to the store. -/
def statementCount {α : Type} (run : Run α) : Nat :=
  (statements run.1).length

/-- A request of `CreateProduct`. -/
def newProduct : CreateProductRequest :=
  { Name := "abc", Sku := "SKU-1", ShortDescription := "", Description := "", Price := 0,
    PriceOld := 0, Discount := 0, Quantity := 3, IsActive := true, Brand := "", Rating := 0,
    CategoryId := 1 }

end Marketplace

/-! # Theorems -/

namespace Marketplace

/-- The condition of `CreateUser` on the insert error holds exactly when the first
`*pq.Error` of the error's chain has the code `23505`. -/
theorem isUniqueViolation_iff (err : DbError) :
    err.isUniqueViolation = true ↔ err.asPq = some "23505" := by
  unfold DbError.isUniqueViolation
  cases h : err.asPq with
  | none => simp
  | some code => simp

/-- C1: in `CreateUser`, once the role lookup and the hashing have succeeded, an insert
error whose `*pq.Error` has code `23505` gives no response and the status `AlreadyExists`
with message "email already exists"; any other insert error gives the status `Internal`
with message "failed to create user"; so the status is `AlreadyExists` exactly for the
unique violation. -/
theorem createUser_insert_error (db : DB) (bcrypt : Hasher) (req : CreateUserRequest)
    (r : Nat) (d : String) (err : DbError)
    (hrole : db.QueryRowScanId (Stmt.selectRoleId "buyer") = .ok r)
    (hhash : bcrypt.GenerateFromPassword req.Password DefaultCost = .ok d)
    (hinsert : db.QueryRowScanId
      (Stmt.insertUser req.FirstName req.LastName req.Email d req.PhoneNumber r) = .error err) :
    (err.asPq = some "23505" →
      (CreateUser db bcrypt req).2
        = .error (HandlerError.status Code.AlreadyExists "email already exists")) ∧
    (err.asPq ≠ some "23505" →
      (CreateUser db bcrypt req).2
        = .error (HandlerError.status Code.Internal "failed to create user")) ∧
    ((∃ e, (CreateUser db bcrypt req).2 = .error e ∧ e.code = Code.AlreadyExists)
      ↔ err.asPq = some "23505") := by
  have hrun : (CreateUser db bcrypt req).2
      = if err.isUniqueViolation then
          .error (HandlerError.status Code.AlreadyExists "email already exists")
        else .error (HandlerError.status Code.Internal "failed to create user") := by
    simp only [CreateUser, DEFAULT_USER_ROLE, createUserInsert, hrole, hhash, hinsert]
    split <;> rfl
  by_cases hu : err.asPq = some "23505"
  · have hb : err.isUniqueViolation = true := (isUniqueViolation_iff err).2 hu
    rw [hrun, hb]
    refine ⟨fun _ => rfl, fun hn => absurd hu hn, ?_⟩
    exact ⟨fun _ => hu, fun _ => ⟨_, rfl, rfl⟩⟩
  · have hb : err.isUniqueViolation = false := by
      cases hc : err.isUniqueViolation with
      | false => rfl
      | true => exact absurd ((isUniqueViolation_iff err).1 hc) hu
    rw [hrun, hb]
    refine ⟨fun h => absurd h hu, fun _ => rfl, ?_⟩
    constructor
    · rintro ⟨e, he, hcode⟩
      simp only [Bool.false_eq_true, if_false, Except.error.injEq] at he
      subst he
      simp [HandlerError.code] at hcode
    · intro h
      exact absurd h hu

/-- The run of `TestCreateUser_EmailAlreadyExists`. -/
theorem createUser_insert_error_witness :
    (CreateUser emailExistsDB (fixedHasher "digest") johnDoe).2
      = .error (HandlerError.status Code.AlreadyExists "email already exists") :=
  (createUser_insert_error emailExistsDB (fixedHasher "digest") johnDoe 1 "digest"
    (DbError.pq "23505" "") rfl rfl rfl).1 rfl

/-- C2: in `CreateUser`, when the role lookup returns `r`, the hasher returns the digest
`d` and the insert returns the id `n`, the insert is sent with the request's first name,
last name and email, the digest, the request's phone number and `r`, in that order, and
the response's `Id` is `n`. -/
theorem createUser_success (db : DB) (bcrypt : Hasher) (req : CreateUserRequest)
    (r : Nat) (d : String) (n : Nat)
    (hrole : db.QueryRowScanId (Stmt.selectRoleId "buyer") = .ok r)
    (hhash : bcrypt.GenerateFromPassword req.Password DefaultCost = .ok d)
    (hinsert : db.QueryRowScanId
      (Stmt.insertUser req.FirstName req.LastName req.Email d req.PhoneNumber r) = .ok n) :
    CreateUser db bcrypt req =
      ([Event.stmt (Stmt.selectRoleId "buyer"), Event.hash req.Password DefaultCost,
        Event.stmt
          (Stmt.insertUser req.FirstName req.LastName req.Email d req.PhoneNumber r)],
        .ok { Id := n }) := by
  simp only [CreateUser, DEFAULT_USER_ROLE, createUserInsert, hrole, hhash, hinsert]

/-- The run of `TestCreateUser_Success`. -/
theorem createUser_success_witness :
    CreateUser createSuccessDB (fixedHasher "digest") johnDoe =
      ([Event.stmt (Stmt.selectRoleId "buyer"), Event.hash "password123" 10,
        Event.stmt (Stmt.insertUser "John" "Doe" "john@example.com" "digest" "+1234567890" 1)],
        .ok { Id := 100 }) :=
  createUser_success createSuccessDB (fixedHasher "digest") johnDoe 1 "digest" 100 rfl rfl rfl

/-- The run of the second half of `UpdateUser`, in one equation. -/
theorem updateUserQuery_eq (db : DB) (req : UpdateUserRequest) (p : Option String)
    (before : List Event) :
    updateUserQuery db req p before =
      (before ++ [Event.stmt (updateUserStmt req p)],
        match db.QueryRowScanUser (updateUserStmt req p) with
        | .error err =>
          if err.isNoRows then .error (HandlerError.status Code.NotFound "user not found")
          else .error (HandlerError.raw err)
        | .ok user => .ok { User := user }) := by
  unfold updateUserQuery
  cases hq : db.QueryRowScanUser (updateUserStmt req p) with
  | error err => by_cases h : err.isNoRows = true <;> simp [hq, h]
  | ok user => simp [hq]

/-- The run of `UpdateUser` for a request without a password. -/
theorem updateUser_of_empty (db : DB) (bcrypt : Hasher) (req : UpdateUserRequest)
    (h : req.Password = "") : UpdateUser db bcrypt req = updateUserQuery db req none [] := by
  simp [UpdateUser, h]

/-- The run of `UpdateUser` for a request with a password that the hasher accepts. -/
theorem updateUser_of_hashed (db : DB) (bcrypt : Hasher) (req : UpdateUserRequest) (d : String)
    (h : req.Password ≠ "")
    (hhash : bcrypt.GenerateFromPassword req.Password DefaultCost = .ok d) :
    UpdateUser db bcrypt req
      = updateUserQuery db req (some d) [Event.hash req.Password DefaultCost] := by
  simp [UpdateUser, h, hhash]

/-- The run of `UpdateUser` for a request with a password that the hasher rejects. -/
theorem updateUser_of_hash_error (db : DB) (bcrypt : Hasher) (req : UpdateUserRequest)
    (e : String) (h : req.Password ≠ "")
    (hhash : bcrypt.GenerateFromPassword req.Password DefaultCost = .error e) :
    UpdateUser db bcrypt req
      = ([Event.hash req.Password DefaultCost],
          .error (HandlerError.status Code.Internal "failed to process password")) := by
  simp [UpdateUser, h, hhash]

/-- C3: in `UpdateUser`, a request with an empty password sends the update with the null
password parameter and calls no hasher; a request with a non-empty password sends it with
the hasher's digest of that password; the other parameters are the request's id, email,
first name, last name and phone number; and in every statement sent the password parameter
is null exactly when the request's password is empty. -/
theorem updateUser_password_parameter (db : DB) (bcrypt : Hasher) (req : UpdateUserRequest) :
    (req.Password = "" →
      (UpdateUser db bcrypt req).1 =
        [Event.stmt (Stmt.updateUser req.Id req.Email none req.FirstName req.LastName
          req.PhoneNumber)]) ∧
    (∀ d, req.Password ≠ "" → bcrypt.GenerateFromPassword req.Password DefaultCost = .ok d →
      (UpdateUser db bcrypt req).1 =
        [Event.hash req.Password DefaultCost,
          Event.stmt (Stmt.updateUser req.Id req.Email (some d) req.FirstName req.LastName
            req.PhoneNumber)]) ∧
    (∀ s ∈ statements (UpdateUser db bcrypt req).1, ∃ p,
      s = Stmt.updateUser req.Id req.Email p req.FirstName req.LastName req.PhoneNumber ∧
      (p = none ↔ req.Password = "") ∧
      (∀ d, p = some d → bcrypt.GenerateFromPassword req.Password DefaultCost = .ok d)) := by
  refine ⟨?_, ?_, ?_⟩
  · intro h
    rw [updateUser_of_empty db bcrypt req h, updateUserQuery_eq]
    rfl
  · intro d h hhash
    rw [updateUser_of_hashed db bcrypt req d h hhash, updateUserQuery_eq]
    rfl
  · intro s hs
    by_cases h : req.Password = ""
    · rw [updateUser_of_empty db bcrypt req h, updateUserQuery_eq] at hs
      simp only [List.nil_append, statements, List.mem_singleton] at hs
      exact ⟨none, hs, ⟨fun _ => h, fun _ => rfl⟩, fun d hd => nomatch hd⟩
    · cases hhash : bcrypt.GenerateFromPassword req.Password DefaultCost with
      | error e =>
        rw [updateUser_of_hash_error db bcrypt req e h hhash] at hs
        simp [statements] at hs
      | ok d =>
        rw [updateUser_of_hashed db bcrypt req d h hhash, updateUserQuery_eq] at hs
        simp only [List.singleton_append, statements, List.mem_singleton] at hs
        refine ⟨some d, hs, ⟨fun hp => Option.noConfusion hp, fun hp => absurd hp h⟩, ?_⟩
        intro d2 hd
        cases hd
        rfl

/-- The statement of `TestUpdateUser_WithPassword`. -/
theorem updateUser_password_parameter_witness :
    (UpdateUser (updateReturnsDB ⟨1, "test@example.com", "John", "Doe", "+123"⟩)
        (fixedHasher "digest") johnNewPassword).1 =
      [Event.hash "newpassword123" 10,
        Event.stmt (Stmt.updateUser 1 "" (some "digest") "John" "" "")] :=
  (updateUser_password_parameter (updateReturnsDB ⟨1, "test@example.com", "John", "Doe", "+123"⟩)
    (fixedHasher "digest") johnNewPassword).2.1 "digest" (by decide) rfl

/-- SQL `COALESCE(NULLIF(p, ''), old)` is `p` unless `p` is empty, and then `old`. -/
theorem coalesce_nullif (p old : String) :
    COALESCE (NULLIF p "") old = if p = "" then old else p := by
  unfold NULLIF COALESCE
  by_cases h : p = "" <;> simp [h]

/-- C4: the update statement of `UpdateUser`, on a stored account with the request's id:
the row after the update is in the table and is the row returned; each of email, first
name, last name and phone number is the request's value when that value is not empty and
the stored value when it is empty; the stored digest is unchanged when the password
parameter is null; id and role are unchanged; rows with another id are unchanged. -/
theorem updateUser_coalescing (req : UpdateUserRequest) (p : Option String)
    (users : List UserRow) (row : UserRow) (hrow : row ∈ users) (hid : row.id = req.Id) :
    userSet row (updateUserStmt req p) ∈ (updateUsers (updateUserStmt req p) users).1 ∧
    returningUser (userSet row (updateUserStmt req p))
      ∈ (updateUsers (updateUserStmt req p) users).2 ∧
    (userSet row (updateUserStmt req p)).email
      = (if req.Email = "" then row.email else req.Email) ∧
    (userSet row (updateUserStmt req p)).firstname
      = (if req.FirstName = "" then row.firstname else req.FirstName) ∧
    (userSet row (updateUserStmt req p)).lastname
      = (if req.LastName = "" then row.lastname else req.LastName) ∧
    (userSet row (updateUserStmt req p)).phone_number
      = (if req.PhoneNumber = "" then row.phone_number else req.PhoneNumber) ∧
    (p = none → (userSet row (updateUserStmt req p)).password = row.password) ∧
    (req.Email = "" → (userSet row (updateUserStmt req p)).email = row.email) ∧
    (userSet row (updateUserStmt req p)).id = row.id ∧
    (userSet row (updateUserStmt req p)).role_id = row.role_id ∧
    (∀ other ∈ users, other.id ≠ req.Id →
      other ∈ (updateUsers (updateUserStmt req p) users).1) := by
  have hw : userWhere row (updateUserStmt req p) = true := by
    simp [userWhere, updateUserStmt, hid]
  refine ⟨?_, ?_, ?_, ?_, ?_, ?_, ?_, ?_, rfl, rfl, ?_⟩
  · simp only [updateUsers, List.mem_map]
    exact ⟨row, hrow, by simp [hw]⟩
  · simp only [updateUsers, List.mem_map, List.mem_filter]
    exact ⟨row, ⟨hrow, hw⟩, rfl⟩
  · simp only [userSet, updateUserStmt, coalesce_nullif]
  · simp only [userSet, updateUserStmt, coalesce_nullif]
  · simp only [userSet, updateUserStmt, coalesce_nullif]
  · simp only [userSet, updateUserStmt, coalesce_nullif]
  · intro hp
    subst hp
    rfl
  · intro he
    simp only [userSet, updateUserStmt, coalesce_nullif, he, if_true]
  · intro other hother hne
    have hf : userWhere other (updateUserStmt req p) = false := by
      simp [userWhere, updateUserStmt, hne]
    simp only [updateUsers, List.mem_map]
    exact ⟨other, hother, by simp [hf]⟩

/-- An update with an empty email and no password on a stored account keeps the email and
the digest. -/
theorem updateUser_coalescing_witness :
    (userSet storedJohn (updateUserStmt john1 none)).email = "john@example.com" ∧
    (userSet storedJohn (updateUserStmt john1 none)).password = "old digest" :=
  have h := updateUser_coalescing john1 none [storedJohn] storedJohn
    (List.mem_singleton.2 rfl) rfl
  ⟨h.2.2.2.2.2.2.2.1 rfl, h.2.2.2.2.2.2.1 rfl⟩

/-- C5: in `UpdateUser`, once the update statement is sent: if the store answers it with
an error that is `sql.ErrNoRows`, the handler returns no response and the status
`NotFound`; if the store answers it with a row, the handler returns no error and a user
with that row's id, email, first name, last name and phone number. -/
theorem updateUser_outcome (db : DB) (bcrypt : Hasher) (req : UpdateUserRequest)
    (p : Option String)
    (hsent : Event.stmt (updateUserStmt req p) ∈ (UpdateUser db bcrypt req).1) :
    (∀ err, db.QueryRowScanUser (updateUserStmt req p) = .error err → err.isNoRows = true →
      (UpdateUser db bcrypt req).2
        = .error (HandlerError.status Code.NotFound "user not found")) ∧
    (∀ row, db.QueryRowScanUser (updateUserStmt req p) = .ok row →
      (UpdateUser db bcrypt req).2 =
        .ok { User := { Id := row.Id, Email := row.Email, FirstName := row.FirstName,
                        LastName := row.LastName, PhoneNumber := row.PhoneNumber } }) := by
  have hrun : (UpdateUser db bcrypt req).2
      = (updateUserQuery db req p []).2 := by
    by_cases h : req.Password = ""
    · rw [updateUser_of_empty db bcrypt req h, updateUserQuery_eq] at hsent
      rw [updateUser_of_empty db bcrypt req h]
      simp only [List.nil_append, List.mem_singleton, Event.stmt.injEq, updateUserStmt,
        Stmt.updateUser.injEq, true_and, and_true] at hsent
      subst hsent
      rfl
    · cases hhash : bcrypt.GenerateFromPassword req.Password DefaultCost with
      | error e =>
        rw [updateUser_of_hash_error db bcrypt req e h hhash] at hsent
        simp at hsent
      | ok d =>
        rw [updateUser_of_hashed db bcrypt req d h hhash, updateUserQuery_eq] at hsent
        rw [updateUser_of_hashed db bcrypt req d h hhash]
        simp only [List.singleton_append, List.mem_cons, List.mem_singleton, Event.stmt.injEq,
          updateUserStmt, Stmt.updateUser.injEq, true_and, and_true,
          List.not_mem_nil, or_false] at hsent
        rcases hsent with hbad | hp
        · cases hbad
        · subst hp
          rw [updateUserQuery_eq, updateUserQuery_eq]
  constructor
  · intro err herr hno
    rw [hrun, updateUserQuery_eq, herr]
    simp [hno]
  · intro row hok
    rw [hrun, updateUserQuery_eq, hok]

/-- The run of `TestUpdateUser_UserNotFound`. -/
theorem updateUser_outcome_witness :
    (UpdateUser (updateFailsDB DbError.noRows) (fixedHasher "digest") john999).2
      = .error (HandlerError.status Code.NotFound "user not found") :=
  (updateUser_outcome (updateFailsDB DbError.noRows) (fixedHasher "digest") john999 none
    (List.mem_singleton.2 rfl)).1 DbError.noRows rfl rfl

/-- C6: in `DeleteUser`, when the delete statement runs without error and reports `k`
affected rows, the handler returns the status `NotFound` and no response exactly when
`k = 0`, and for `k ≥ 1` it returns an empty response and no error. -/
theorem deleteUser_outcome (db : DB) (req : DeleteUserRequest) (res : Result) (k : Int)
    (hexec : db.Exec (Stmt.deleteUser req.Id) = .ok res)
    (hrows : res.RowsAffected = .ok k) :
    ((DeleteUser db req).2 = .error (HandlerError.status Code.NotFound "user not found")
      ↔ k = 0) ∧
    ((∃ e, (DeleteUser db req).2 = .error e ∧ e.code = Code.NotFound) ↔ k = 0) ∧
    (1 ≤ k → (DeleteUser db req).2 = .ok {}) := by
  have hrun : (DeleteUser db req).2
      = if k = 0 then .error (HandlerError.status Code.NotFound "user not found")
        else .ok {} := by
    simp only [DeleteUser, hexec, hrows]
    split <;> rfl
  rw [hrun]
  by_cases hk : k = 0
  · subst hk
    simp [HandlerError.code]
  · have h1 : ¬ (1 ≤ k) ∨ True := Or.inr trivial
    simp [hk]

/-- The runs of `TestDeleteUser_UserNotFound` and `TestDeleteUser_Success`. -/
theorem deleteUser_outcome_witness :
    (DeleteUser (execDB (.ok 0)) { Id := 999 }).2
        = .error (HandlerError.status Code.NotFound "user not found") ∧
    (DeleteUser (execDB (.ok 1)) { Id := 1 }).2 = .ok {} :=
  ⟨(deleteUser_outcome (execDB (.ok 0)) { Id := 999 } { RowsAffected := .ok 0 } 0 rfl rfl).1.2
      rfl,
    (deleteUser_outcome (execDB (.ok 1)) { Id := 1 } { RowsAffected := .ok 1 } 1 rfl rfl).2.2
      (by decide)⟩

/-- C7: the runs of `TestUpdateUser_DatabaseError` and `TestDeleteUser_DatabaseError`, and
a `DeleteUser` whose affected-row count cannot be read: the handler returns the store's
error itself, which carries the code `Unknown` and none of `NotFound`, `AlreadyExists`,
`Internal` and `InvalidArgument`. -/
theorem updateUser_deleteUser_raw_error :
    (UpdateUser (updateFailsDB (DbError.other "database error")) (fixedHasher "digest")
        john1).2 = .error (HandlerError.raw (DbError.other "database error")) ∧
    (DeleteUser (execFailsDB (DbError.other "database error")) { Id := 1 }).2
      = .error (HandlerError.raw (DbError.other "database error")) ∧
    (DeleteUser (execDB (.error (DbError.other "no RowsAffected available"))) { Id := 1 }).2
      = .error (HandlerError.raw (DbError.other "no RowsAffected available")) ∧
    (HandlerError.raw (DbError.other "database error")).code = Code.Unknown ∧
    (HandlerError.raw (DbError.other "database error")).code ∉
      [Code.NotFound, Code.AlreadyExists, Code.Internal, Code.InvalidArgument] := by
  refine ⟨rfl, rfl, rfl, rfl, ?_⟩
  decide

/-- C8: in `CreateUser`, when the lookup of the role "buyer" fails with any error, the
handler returns no response and the status `Internal` with message "failed to get user
role"; the lookup is the only statement sent and the hasher is not called. -/
theorem createUser_role_lookup_fails (db : DB) (bcrypt : Hasher) (req : CreateUserRequest)
    (err : DbError) (hrole : db.QueryRowScanId (Stmt.selectRoleId "buyer") = .error err) :
    (CreateUser db bcrypt req).2
      = .error (HandlerError.status Code.Internal "failed to get user role") ∧
    (CreateUser db bcrypt req).1 = [Event.stmt (Stmt.selectRoleId "buyer")] ∧
    hashCalls (CreateUser db bcrypt req).1 = [] ∧
    statements (CreateUser db bcrypt req).1 = [Stmt.selectRoleId "buyer"] := by
  have hrun : CreateUser db bcrypt req
      = ([Event.stmt (Stmt.selectRoleId "buyer")],
          .error (HandlerError.status Code.Internal "failed to get user role")) := by
    simp only [CreateUser, DEFAULT_USER_ROLE, hrole]
  rw [hrun]
  exact ⟨rfl, rfl, rfl, rfl⟩

/-- The run of `TestCreateUser_RoleNotFound`. -/
theorem createUser_role_lookup_fails_witness :
    (CreateUser roleNotFoundDB (fixedHasher "digest") johnDoe).2
      = .error (HandlerError.status Code.Internal "failed to get user role") :=
  (createUser_role_lookup_fails roleNotFoundDB (fixedHasher "digest") johnDoe DbError.noRows
    rfl).1

/-! ## The search of `GetAllProductsByQuery` -/

/-- A pattern that starts with `%` matches when the rest of it matches some tail of the
text. -/
theorem likeMatch_percent (p t : List Char) :
    likeMatch ('%' :: p) t = t.tails.any fun rest => likeMatch p rest := by
  rw [likeMatch.eq_def]
  simp

/-- A pattern that starts with a plain character matches when the text starts with that
character and the rest matches. -/
theorem likeMatch_literal (c : Char) (hc : isLikeMeta c = false) (p t : List Char) :
    likeMatch (c :: p) t =
      match t with
      | [] => false
      | x :: ts => x == c && likeMatch p ts := by
  simp only [isLikeMeta, Bool.or_eq_false_iff, decide_eq_false_iff_not] at hc
  rw [likeMatch.eq_def]
  simp only [hc.1.1, hc.1.2, hc.2, if_false]

/-- A pattern that starts with plain characters matches when the text starts with them and
the rest matches. -/
theorem likeMatch_literals (q : List Char) (hq : ∀ c ∈ q, isLikeMeta c = false)
    (p t : List Char) :
    likeMatch (q ++ p) t = true ↔ ∃ rest, t = q ++ rest ∧ likeMatch p rest = true := by
  induction q generalizing t with
  | nil => simp
  | cons c q ih =>
    have hc : isLikeMeta c = false := hq c (List.mem_cons_self c q)
    have hq2 : ∀ d ∈ q, isLikeMeta d = false := fun d hd => hq d (List.mem_cons_of_mem c hd)
    rw [List.cons_append, likeMatch_literal c hc]
    cases t with
    | nil => simp
    | cons x ts =>
      simp only [Bool.and_eq_true, beq_iff_eq, ih hq2, List.cons_append, List.cons.injEq]
      constructor
      · rintro ⟨hx, rest, hts, hrest⟩
        exact ⟨rest, ⟨hx, hts⟩, hrest⟩
      · rintro ⟨rest, ⟨hx, hts⟩, hrest⟩
        exact ⟨hx, rest, hts, hrest⟩

/-- The pattern `%` matches every text. -/
theorem likeMatch_any (t : List Char) : likeMatch ['%'] t = true := by
  rw [likeMatch_percent, List.any_eq_true]
  exact ⟨[], by simp, rfl⟩

/-- Plain characters between two `%` match the texts that contain them. -/
theorem likeMatch_contains (q : List Char) (hq : ∀ c ∈ q, isLikeMeta c = false)
    (t : List Char) :
    likeMatch ('%' :: (q ++ ['%'])) t = true ↔ q <:+: t := by
  rw [likeMatch_percent, List.any_eq_true]
  constructor
  · rintro ⟨s, hs, hm⟩
    rw [List.mem_tails] at hs
    obtain ⟨rest, hrest, -⟩ := (likeMatch_literals q hq ['%'] s).1 hm
    obtain ⟨front, hfront⟩ := hs
    exact ⟨front, rest, by rw [← hfront, hrest, List.append_assoc]⟩
  · rintro ⟨front, rest, h⟩
    refine ⟨q ++ rest, ?_, ?_⟩
    · rw [List.mem_tails]
      exact ⟨front, by rw [← h, List.append_assoc]⟩
    · exact (likeMatch_literals q hq ['%'] (q ++ rest)).2 ⟨rest, rfl, likeMatch_any rest⟩

/-- The characters of the pattern `CONCAT('%', q, '%')`. -/
theorem likePattern_data (q : String) : (likePattern q).data = '%' :: (q.data ++ ['%']) := by
  simp [likePattern]

/-- For a query of plain characters, the `LIKE` condition of the search is substring
containment. -/
theorem LIKE_contains (name q : String) (hq : ∀ c ∈ q.data, isLikeMeta c = false) :
    LIKE name (likePattern q) = containsSubstring name q := by
  rw [Bool.eq_iff_iff]
  unfold LIKE containsSubstring
  rw [likePattern_data, decide_eq_true_iff]
  exact likeMatch_contains q.data hq name.data

/-- A pattern followed by `%` does not end in a lone escape character. -/
theorem danglingEscape_append_percent (n : Nat) :
    ∀ q : List Char, q.length ≤ n → danglingEscape (q ++ ['%']) = false := by
  induction n with
  | zero =>
    intro q hq
    have : q = [] := List.length_eq_zero.1 (Nat.le_zero.1 hq)
    subst this
    decide
  | succ n ih =>
    intro q hq
    cases q with
    | nil => decide
    | cons c q =>
      have hlen : q.length ≤ n := Nat.le_of_succ_le_succ hq
      rw [List.cons_append, danglingEscape.eq_def]
      by_cases hc : c = '\\'
      · simp only [hc, if_true]
        cases q with
        | nil => rfl
        | cons d q =>
          simp only [List.cons_append]
          exact ih q (Nat.le_of_succ_le hlen)
      · simp only [hc, if_false]
        exact ih q hlen

/-- The pattern the search builds never ends in a lone escape character, so the store
never rejects it. -/
theorem likePattern_no_dangling_escape (q : String) :
    danglingEscape (likePattern q).data = false := by
  rw [likePattern_data, danglingEscape.eq_def]
  simp only [show ('%' = '\\') = False from by decide, if_false]
  exact danglingEscape_append_percent q.data.length q.data (Nat.le_refl _)

/-- The row loop over rows that all scan appends the selected columns of each. -/
theorem scanProducts_rowSteps (rows : List ProductRow) (acc : List Product) :
    scanProducts (rowSteps rows) acc = .ok (acc ++ rows.map selectedProduct) := by
  induction rows generalizing acc with
  | nil => simp [rowSteps, scanProducts]
  | cons row rows ih =>
    have := ih (acc ++ [selectedProduct row])
    simp only [rowSteps] at this
    simp [rowSteps, scanProducts, this]

/-- The run of `GetAllProductsByQuery` on a store that runs the `SELECT` on a table. -/
theorem getAllProductsByQuery_run (db : DB) (products : List ProductRow) (q : String)
    (hdb : db.Query (Stmt.selectActiveProductsLike q)
      = .ok (rowSteps (selectActiveProductsLike q products))) :
    GetAllProductsByQuery db { Query := q } =
      ([Event.stmt (Stmt.selectActiveProductsLike q)],
        .ok { Products := (selectActiveProductsLike q products).map selectedProduct }) := by
  simp [GetAllProductsByQuery, hdb, scanProducts_rowSteps]

/-- C9, as stated, fails: on a table holding one active product named "abc", the query
"a_c" returns that product, though "a_c" is not a substring of "abc"; and on a table
holding one active product named "a\b", the query "\" returns nothing, though "\" is a
substring of "a\b". -/
theorem getAllProductsByQuery_not_substring :
    (GetAllProductsByQuery (productsDB [abcRow]) { Query := "a_c" }).2
        = .ok { Products := [selectedProduct abcRow] } ∧
    ([abcRow].filter fun row => row.is_active && containsSubstring row.name "a_c") = [] ∧
    (GetAllProductsByQuery (productsDB [{ abcRow with name := "a\\b" }]) { Query := "\\" }).2
        = .ok { Products := [] } ∧
    ([{ abcRow with name := "a\\b" }].filter fun row =>
        row.is_active && containsSubstring row.name "\\") = [{ abcRow with name := "a\\b" }] := by
  refine ⟨?_, by decide, ?_, by decide⟩
  · rw [getAllProductsByQuery_run (productsDB [abcRow]) [abcRow] "a_c" rfl]
    have h : (selectActiveProductsLike "a_c" [abcRow]).map selectedProduct
        = [selectedProduct abcRow] := by decide
    rw [h]
  · rw [getAllProductsByQuery_run (productsDB [{ abcRow with name := "a\\b" }])
      [{ abcRow with name := "a\\b" }] "\\" rfl]
    have h : (selectActiveProductsLike "\\" [{ abcRow with name := "a\\b" }]).map selectedProduct
        = [] := by decide
    rw [h]

/-- C9, amended: on a store that runs the search statement on a table, for a query `q` with
none of the characters `%`, `_` and backslash, the handler returns exactly the rows with
`is_active` true whose name contains `q` as a case-sensitive substring, so that the empty
query returns every active product and such a query contained in no active product's name
returns nothing; and for every query no inactive product is returned. -/
theorem getAllProductsByQuery_substring (db : DB) (products : List ProductRow) (q : String)
    (hdb : db.Query (Stmt.selectActiveProductsLike q)
      = .ok (rowSteps (selectActiveProductsLike q products))) :
    ∃ found, (GetAllProductsByQuery db { Query := q }).2 = .ok { Products := found } ∧
      (∀ product ∈ found, product.IsActive = true) ∧
      ((∀ c ∈ q.data, isLikeMeta c = false) →
        found = (products.filter fun row =>
          row.is_active && containsSubstring row.name q).map selectedProduct) ∧
      (q = "" → found = (products.filter fun row => row.is_active).map selectedProduct) ∧
      ((∀ c ∈ q.data, isLikeMeta c = false) →
        (∀ row ∈ products, row.is_active = true → containsSubstring row.name q = false) →
        found = []) := by
  have hplain : (∀ c ∈ q.data, isLikeMeta c = false) →
      (selectActiveProductsLike q products).map selectedProduct
        = (products.filter fun row =>
            row.is_active && containsSubstring row.name q).map selectedProduct := by
    intro hq
    unfold selectActiveProductsLike
    congr 1
    apply List.filter_congr
    intro row _
    rw [LIKE_contains row.name q hq]
  refine ⟨(selectActiveProductsLike q products).map selectedProduct, ?_, ?_, hplain, ?_, ?_⟩
  · rw [getAllProductsByQuery_run db products q hdb]
  · intro product hproduct
    simp only [selectActiveProductsLike, List.mem_map, List.mem_filter,
      Bool.and_eq_true] at hproduct
    obtain ⟨row, ⟨-, hactive, -⟩, rfl⟩ := hproduct
    exact hactive
  · intro hq
    subst hq
    rw [hplain (by intro c hc; simp at hc)]
    congr 1
    apply List.filter_congr
    intro row _
    have : containsSubstring row.name "" = true := by
      unfold containsSubstring
      rw [decide_eq_true_iff]
      exact List.nil_infix
    rw [this, Bool.and_true]
  · intro hq hnone
    rw [hplain hq]
    rw [List.map_eq_nil_iff, List.filter_eq_nil_iff]
    intro row hrow
    cases hactive : row.is_active with
    | false => simp
    | true => simp [hnone row hrow hactive]

/-- A search for "bc" on a table with an active "abc" and an inactive "abcd" returns the
active one only. -/
theorem getAllProductsByQuery_substring_witness :
    ∃ found,
      (GetAllProductsByQuery (productsDB [abcRow, inactiveRow]) { Query := "bc" }).2
        = .ok { Products := found } ∧ found = [selectedProduct abcRow] := by
  obtain ⟨found, hrun, -, hplain, -, -⟩ :=
    getAllProductsByQuery_substring (productsDB [abcRow, inactiveRow]) [abcRow, inactiveRow]
      "bc" rfl
  exact ⟨found, hrun, (hplain (by decide)).trans (by decide)⟩

/-! ## `UpdateProduct` -/

/-- C10: in `UpdateProduct`, a failing statement and an unreadable affected-row count give
the status `Internal`; zero affected rows give no response and the status `NotFound`; at
least one affected row gives a response with the request's `ProductId`; the one statement
sent carries the request's twelve data fields and its id, and on a row it sets all twelve
columns to the request's values, empty or not, and the update timestamp to the current
time. -/
theorem updateProduct_outcome (db : DB) (req : UpdateProductRequest) :
    (∀ err, db.Exec (updateProductStmt req) = .error err →
      (UpdateProduct db req).2
        = .error (HandlerError.status Code.Internal ("db error: " ++ err.Error))) ∧
    (∀ res err, db.Exec (updateProductStmt req) = .ok res → res.RowsAffected = .error err →
      (UpdateProduct db req).2
        = .error (HandlerError.status Code.Internal ("rows affected error: " ++ err.Error))) ∧
    (∀ res, db.Exec (updateProductStmt req) = .ok res → res.RowsAffected = .ok 0 →
      (UpdateProduct db req).2
        = .error (HandlerError.status Code.NotFound "product not found")) ∧
    (∀ res k, db.Exec (updateProductStmt req) = .ok res → res.RowsAffected = .ok k → 1 ≤ k →
      (UpdateProduct db req).2 = .ok { ProductId := req.ProductId }) ∧
    (UpdateProduct db req).1 =
      [Event.stmt (Stmt.updateProduct req.Name req.Sku req.ShortDescription req.Description
        req.Price req.PriceOld req.Discount req.Quantity req.IsActive req.Brand req.Rating
        req.CategoryId req.ProductId)] ∧
    (∀ now row, productSet now row (updateProductStmt req) =
      { id := row.id, name := req.Name, sku := req.Sku,
        short_description := req.ShortDescription, description := req.Description,
        price := req.Price, price_old := req.PriceOld, discount := req.Discount,
        quantity := req.Quantity, is_active := req.IsActive, brand := req.Brand,
        rating := req.Rating, category_id := req.CategoryId, created_at := row.created_at,
        updated_at := now }) := by
  refine ⟨?_, ?_, ?_, ?_, ?_, ?_⟩
  · intro err herr
    simp only [UpdateProduct, herr]
  · intro res err hres herr
    simp only [UpdateProduct, hres, herr]
  · intro res hres hrows
    simp only [UpdateProduct, hres, hrows, if_true]
  · intro res k hres hrows hk
    have hk0 : k ≠ 0 := by omega
    simp only [UpdateProduct, hres, hrows, hk0, if_false]
  · show (UpdateProduct db req).1 = [Event.stmt (updateProductStmt req)]
    unfold UpdateProduct
    dsimp only
    split
    · rfl
    · split
      · rfl
      · split <;> rfl
  · intro now row
    rfl

/-- An update of a product that does not exist gives `NotFound`, one that changes a row
gives the request's id, and on a row it stores the request's empty name. -/
theorem updateProduct_outcome_witness :
    (UpdateProduct (execDB (.ok 0)) clearedProduct).2
        = .error (HandlerError.status Code.NotFound "product not found") ∧
    (UpdateProduct (execDB (.ok 1)) clearedProduct).2 = .ok { ProductId := 1 } ∧
    (productSet 7 abcRow (updateProductStmt clearedProduct)).name = "" :=
  have h := updateProduct_outcome (execDB (.ok 0)) clearedProduct
  have h1 := updateProduct_outcome (execDB (.ok 1)) clearedProduct
  ⟨h.2.2.1 { RowsAffected := .ok 0 } rfl rfl,
    h1.2.2.2.1 { RowsAffected := .ok 1 } 1 rfl rfl (by decide),
    congrArg ProductRow.name (h.2.2.2.2.2 7 abcRow)⟩

/-! ## Statements per invocation -/

/-- The events of `CreateUser`: the role lookup, then the hasher call when the lookup
succeeds, then the insert when the hashing succeeds. -/
theorem createUser_events (db : DB) (bcrypt : Hasher) (req : CreateUserRequest) :
    (CreateUser db bcrypt req).1 =
      match db.QueryRowScanId (Stmt.selectRoleId "buyer") with
      | .error _ => [Event.stmt (Stmt.selectRoleId "buyer")]
      | .ok r =>
        match bcrypt.GenerateFromPassword req.Password DefaultCost with
        | .error _ =>
          [Event.stmt (Stmt.selectRoleId "buyer"), Event.hash req.Password DefaultCost]
        | .ok d =>
          [Event.stmt (Stmt.selectRoleId "buyer"), Event.hash req.Password DefaultCost,
            Event.stmt (createUserInsert req d r)] := by
  unfold CreateUser
  simp only [DEFAULT_USER_ROLE]
  cases db.QueryRowScanId (Stmt.selectRoleId "buyer") with
  | error err => rfl
  | ok r =>
    cases bcrypt.GenerateFromPassword req.Password DefaultCost with
    | error e => rfl
    | ok d =>
      simp only []
      cases db.QueryRowScanId (createUserInsert req d r) with
      | error err => by_cases h : err.isUniqueViolation = true <;> simp [h]
      | ok n => rfl

/-- The number of statements of the second half of `UpdateUser`. -/
theorem updateUserQuery_count (db : DB) (req : UpdateUserRequest) (p : Option String)
    (before : List Event) (h : statements before = []) :
    statementCount (updateUserQuery db req p before) = 1 := by
  have happ : ∀ es : List Event, ∀ s : Stmt,
      statements (es ++ [Event.stmt s]) = statements es ++ [s] := by
    intro es s
    induction es with
    | nil => rfl
    | cons e es ih =>
      cases e with
      | hash pw c => simpa [statements] using ih
      | stmt t => simpa [statements] using ih
  rw [updateUserQuery_eq]
  simp [statementCount, happ, h]

/-- C11, as stated, fails: the run of `TestCreateUser_Success` sends two statements, the
role lookup and the insert, and an `UpdateUser` whose password the hasher rejects sends
none. -/
theorem statementCount_not_one :
    statementCount (CreateUser createSuccessDB (fixedHasher "digest") johnDoe) = 2 ∧
    statements (CreateUser createSuccessDB (fixedHasher "digest") johnDoe).1 =
      [Stmt.selectRoleId "buyer",
        Stmt.insertUser "John" "Doe" "john@example.com" "digest" "+1234567890" 1] ∧
    statementCount
      (UpdateUser (updateReturnsDB ⟨1, "test@example.com", "John", "Doe", "+123"⟩)
        failingHasher johnNewPassword) = 0 := by
  refine ⟨?_, ?_, ?_⟩ <;> decide

/-- C11, amended: `DeleteUser`, `CreateProduct`, `UpdateProduct`, `DeleteProduct` and
`GetAllProductsByQuery` send exactly one statement, whatever the request and the store do;
`UpdateUser` sends exactly one when the request's password is empty or is hashed, and none
when the hashing of a non-empty password fails; `CreateUser` sends two, the role lookup and
the insert, when the lookup and the hashing both succeed, and the lookup alone otherwise. -/
theorem statements_per_invocation (db : DB) (bcrypt : Hasher) (createUser : CreateUserRequest)
    (updateUser : UpdateUserRequest) (deleteUser : DeleteUserRequest)
    (createProduct : CreateProductRequest) (updateProduct : UpdateProductRequest)
    (deleteProduct : DeleteProductRequest) (search : GetAllProductsByQueryRequest) :
    statementCount (DeleteUser db deleteUser) = 1 ∧
    statementCount (CreateProduct db createProduct) = 1 ∧
    statementCount (UpdateProduct db updateProduct) = 1 ∧
    statementCount (DeleteProduct db deleteProduct) = 1 ∧
    statementCount (GetAllProductsByQuery db search) = 1 ∧
    ((updateUser.Password = "" ∨
        ∃ d, bcrypt.GenerateFromPassword updateUser.Password DefaultCost = .ok d) →
      statementCount (UpdateUser db bcrypt updateUser) = 1) ∧
    ((updateUser.Password ≠ "" ∧
        ∃ e, bcrypt.GenerateFromPassword updateUser.Password DefaultCost = .error e) →
      statementCount (UpdateUser db bcrypt updateUser) = 0) ∧
    ((∃ r d, db.QueryRowScanId (Stmt.selectRoleId "buyer") = .ok r ∧
        bcrypt.GenerateFromPassword createUser.Password DefaultCost = .ok d) →
      statementCount (CreateUser db bcrypt createUser) = 2) ∧
    ((¬ ∃ r d, db.QueryRowScanId (Stmt.selectRoleId "buyer") = .ok r ∧
        bcrypt.GenerateFromPassword createUser.Password DefaultCost = .ok d) →
      statementCount (CreateUser db bcrypt createUser) = 1 ∧
      statements (CreateUser db bcrypt createUser).1 = [Stmt.selectRoleId "buyer"]) := by
  refine ⟨?_, ?_, ?_, ?_, ?_, ?_, ?_, ?_, ?_⟩
  · unfold statementCount DeleteUser
    dsimp only
    split
    · rfl
    · split
      · rfl
      · split <;> rfl
  · unfold statementCount CreateProduct
    dsimp only
    split <;> rfl
  · unfold statementCount UpdateProduct
    dsimp only
    split
    · rfl
    · split
      · rfl
      · split <;> rfl
  · unfold statementCount DeleteProduct
    dsimp only
    split <;> rfl
  · unfold statementCount GetAllProductsByQuery
    dsimp only
    split
    · rfl
    · split <;> rfl
  · intro h
    by_cases hpw : updateUser.Password = ""
    · rw [updateUser_of_empty db bcrypt updateUser hpw]
      exact updateUserQuery_count db updateUser none [] rfl
    · rcases h with h | ⟨d, hd⟩
      · exact absurd h hpw
      · rw [updateUser_of_hashed db bcrypt updateUser d hpw hd]
        exact updateUserQuery_count db updateUser (some d) _ rfl
  · rintro ⟨hpw, e, he⟩
    rw [updateUser_of_hash_error db bcrypt updateUser e hpw he]
    rfl
  · rintro ⟨r, d, hr, hd⟩
    unfold statementCount
    rw [createUser_events, hr, hd]
    rfl
  · intro hnot
    unfold statementCount
    rw [createUser_events]
    cases hr : db.QueryRowScanId (Stmt.selectRoleId "buyer") with
    | error err => exact ⟨rfl, rfl⟩
    | ok r =>
      cases hd : bcrypt.GenerateFromPassword createUser.Password DefaultCost with
      | error e => exact ⟨rfl, rfl⟩
      | ok d => exact absurd ⟨r, d, hr, hd⟩ hnot

/-- One invocation of each handler on a store where the role lookup returns 1, the insert
100 and every other call fails: each sends one statement, and `CreateUser` sends two. -/
theorem statements_per_invocation_witness :
    statementCount (DeleteUser createSuccessDB { Id := 1 }) = 1 ∧
    statementCount (GetAllProductsByQuery createSuccessDB { Query := "abc" }) = 1 ∧
    statementCount (UpdateUser createSuccessDB (fixedHasher "digest") john1) = 1 ∧
    statementCount (UpdateUser createSuccessDB failingHasher johnNewPassword) = 0 ∧
    statementCount (CreateUser createSuccessDB (fixedHasher "digest") johnDoe) = 2 ∧
    statementCount (CreateUser roleNotFoundDB (fixedHasher "digest") johnDoe) = 1 :=
  have h := statements_per_invocation createSuccessDB (fixedHasher "digest") johnDoe john1
    { Id := 1 } newProduct clearedProduct { ProductId := 1 } { Query := "abc" }
  have hfail := statements_per_invocation createSuccessDB failingHasher johnDoe johnNewPassword
    { Id := 1 } newProduct clearedProduct { ProductId := 1 } { Query := "abc" }
  have hrole := statements_per_invocation roleNotFoundDB (fixedHasher "digest") johnDoe john1
    { Id := 1 } newProduct clearedProduct { ProductId := 1 } { Query := "abc" }
  ⟨h.1, h.2.2.2.2.1, h.2.2.2.2.2.1 (Or.inl rfl),
    hfail.2.2.2.2.2.2.1 ⟨by decide, _, rfl⟩,
    h.2.2.2.2.2.2.2.1 ⟨1, "digest", rfl, rfl⟩,
    (hrole.2.2.2.2.2.2.2.2 (fun ⟨_, _, hr, _⟩ => nomatch hr)).1⟩

end Marketplace
